import Mathlib

/-!
Verification of the `go-basic` HTTP scaffold: configuration loading and
validation, structured logger construction, dependency container teardown,
the health-check handler, and the CORS middleware, shallowly embedded as
executable Lean definitions translated from the Go source.

Time instants are modelled as nanoseconds since the Unix epoch (`Nat`);
`time.Duration` values are signed (`Int`), and fractional second counts
(Go `float64`) are modelled as rationals.
-/

/- ================= internal/core/constants/constants.go ================= -/

def AppName : String := "CHANGE_ME"

def AppVersion : String := "0.1.0"

def HealthStatusHealthy : String := "healthy"

def HealthStatusDegraded : String := "degraded"

def HealthStatusUnhealthy : String := "unhealthy"

def CORSAllowOrigins : List String :=
  ["http://localhost:3000", "http://localhost:8000", "http://localhost:8080"]

def CORSAllowMethods : List String :=
  ["GET", "POST", "PUT", "DELETE", "PATCH", "OPTIONS"]

def CORSAllowHeaders : List String := ["*"]

def LogFormatJSON : String := "json"

def LogFormatText : String := "text"

/- ===================== internal/config/config.go ======================== -/

/-- `config.Config`: the settings record produced by `Load`.  Field names and
types follow the Go struct (`Port` is a Go `int`, hence `Int`). -/
structure Config where
  AppName : String
  AppVersion : String
  Debug : Bool
  Host : String
  Port : Int
  LogLevel : String
  LogFormat : String
deriving Repr, DecidableEq

/-- One layer of configuration input (the process environment, or the parsed
`.env` file): each recognized key is either bound or absent.  Viper coerces
the `PORT` value to an integer and `DEBUG` to a boolean, so those fields are
typed. -/
structure Env where
  appName : Option String
  appVersion : Option String
  debug : Option Bool
  host : Option String
  port : Option Int
  logLevel : Option String
  logFormat : Option String
deriving Repr

/-- The empty layer: no keys bound (environment unset / no `.env` file). -/
def Env.empty : Env :=
  { appName := none, appVersion := none, debug := none, host := none,
    port := none, logLevel := none, logFormat := none }

/-- Viper precedence for one key: environment variable over `.env` file over
the registered default. -/
def pick {α : Type} (envVal fileVal : Option α) (deflt : α) : α :=
  match envVal with
  | some v => v
  | none => match fileVal with
            | some v => v
            | none => deflt

/-- `strings.ToUpper` restricted to the ASCII strings this program feeds it. -/
def goToUpper (s : String) : String :=
  String.mk (s.data.map Char.toUpper)

/-- Character lists that agree position by position once the first is
uppercased: the spec's "case combination" relation between an input string
and an (uppercase) canonical name, on the underlying characters. -/
def caseVariantL : List Char → List Char → Bool
  | [], [] => true
  | c :: cs, d :: ds => (Char.toUpper c == d) && caseVariantL cs ds
  | _, _ => false

/-- `caseVariant s n`: `s` is a case combination of the canonical name
`n`. -/
def caseVariant (s n : String) : Bool :=
  caseVariantL s.data n.data

/-- The `oneof` values of the `LogLevel` validate tag. -/
def validLogLevels : List String :=
  ["DEBUG", "INFO", "WARNING", "ERROR", "CRITICAL"]

/-- The `oneof` values of the `LogFormat` validate tag. -/
def validLogFormats : List String := ["json", "text"]

/-- `validate.Struct` on `Config`, per the struct tags: `required` (non-zero
value) on every tagged field, `min=1,max=65535` on `Port`, `oneof` on
`LogLevel` and `LogFormat`.  Returns the name of a failing field, or `none`
when the record is valid. -/
def validateStruct (cfg : Config) : Option String :=
  if cfg.AppName = "" then some "AppName"
  else if cfg.AppVersion = "" then some "AppVersion"
  else if cfg.Host = "" then some "Host"
  else if cfg.Port = 0 then some "Port"
  else if cfg.Port < 1 then some "Port"
  else if cfg.Port > 65535 then some "Port"
  else if cfg.LogLevel = "" then some "LogLevel"
  else if cfg.LogLevel ∈ validLogLevels then
    if cfg.LogFormat = "" then some "LogFormat"
    else if cfg.LogFormat ∈ validLogFormats then none
    else some "LogFormat"
  else some "LogLevel"

/-- `config.Load`: apply defaults, the optional `.env` file layer and the
environment layer, normalize the log level to uppercase, then validate.
Returns the populated record or a validation error. -/
def Load (env fileCfg : Env) : Except String Config :=
  let cfg : Config :=
    { AppName := pick env.appName fileCfg.appName "CHANGE_ME"
      AppVersion := pick env.appVersion fileCfg.appVersion "0.1.0"
      Debug := pick env.debug fileCfg.debug false
      Host := pick env.host fileCfg.host "0.0.0.0"
      Port := pick env.port fileCfg.port 8000
      LogLevel := pick env.logLevel fileCfg.logLevel "INFO"
      LogFormat := pick env.logFormat fileCfg.logFormat "json" }
  let cfg : Config := { cfg with LogLevel := goToUpper cfg.LogLevel }
  match validateStruct cfg with
  | some field => .error ("config validation failed: " ++ field)
  | none => .ok cfg

/- ======================== pkg/logger/logger.go ========================== -/

/-- `zapcore.Level`: the leveled-logging backend's severity enumeration. -/
inductive Level where
  | debugLevel
  | infoLevel
  | warnLevel
  | errorLevel
  | dpanicLevel
  | panicLevel
  | fatalLevel
deriving Repr, DecidableEq

/-- `logger.Config`: level and format selection for `New`. -/
structure LoggerConfig where
  Level : String
  Format : String
deriving Repr

/-- `logger.parseLevel`: the Go `switch` over recognized level strings.  The
result mirrors the Go pair `(zapcore.Level, error)`; the error component is
`none` on every path, defaults included. -/
def parseLevel (level : String) : Level × Option String :=
  if level = "DEBUG" then (Level.debugLevel, none)
  else if level = "INFO" then (Level.infoLevel, none)
  else if level = "WARNING" ∨ level = "WARN" then (Level.warnLevel, none)
  else if level = "ERROR" then (Level.errorLevel, none)
  else if level = "CRITICAL" ∨ level = "FATAL" then (Level.fatalLevel, none)
  else (Level.infoLevel, none)

/-- `logger.Logger`: the built logger's observable state — its level gate,
whether the JSON (production) encoder was selected, the buffered entries the
flush operation drains, and the outcome the environment will give the next
flush (zap's `Sync` may surface a transient I/O error from the underlying
sink; it is not determined by this repository's code). -/
structure Logger where
  level : Level
  jsonFormat : Bool
  buffered : List String
  syncErr : Option String
deriving Repr

/-- `logger.New`: parse the level (propagating its error, were there one),
pick the production (JSON) or development (text) encoder by the format
string, and build the logger at that level. -/
def New (cfg : LoggerConfig) : Except String Logger :=
  match parseLevel cfg.Level with
  | (_, some e) => .error e
  | (level, none) =>
      .ok { level := level, jsonFormat := cfg.Format = "json",
            buffered := [], syncErr := none }

/-- `Logger.Sync`: flush buffered entries; reports the sink's transient error
when the environment produces one. -/
def Logger.Sync (l : Logger) : Except String Logger :=
  match l.syncErr with
  | some e => .error e
  | none => .ok { l with buffered := [] }

/- ============== internal/core/dependencies/dependencies.go ============== -/

/-- `http.Client` as configured by `NewContainer`: the pooling parameters and
the set of currently idle connections (abstracted to their count). -/
structure HTTPClient where
  timeoutSec : Nat
  maxIdleConns : Nat
  maxIdleConnsPerHost : Nat
  idleConnTimeoutSec : Nat
  idleConns : Nat
deriving Repr

/-- `http.Client.CloseIdleConnections`: drop all idle pooled connections. -/
def HTTPClient.CloseIdleConnections (c : HTTPClient) : HTTPClient :=
  { c with idleConns := 0 }

/-- `dependencies.Container`: settings, logger and pooled HTTP client held as
one unit. -/
structure Container where
  Config : Config
  Logger : Logger
  HTTPClient : HTTPClient
deriving Repr

/-- `dependencies.NewContainer`: build the shared pooled client (30s timeout,
10 idle connections overall and per host, 90s idle timeout; no connections
exist yet) and aggregate it with the settings and logger. -/
def NewContainer (cfg : Config) (log : Logger) : Container :=
  { Config := cfg, Logger := log,
    HTTPClient := { timeoutSec := 30, maxIdleConns := 10,
                    maxIdleConnsPerHost := 10, idleConnTimeoutSec := 90,
                    idleConns := 0 } }

/-- `Container.Close`: close the client's idle connections, then flush the
logger; the flush's transient error, when present, is returned to the caller
(the idle connections are closed regardless). -/
def Container.Close (c : Container) : Container × Option String :=
  let client := c.HTTPClient.CloseIdleConnections
  match c.Logger.Sync with
  | .error e => ({ c with HTTPClient := client }, some e)
  | .ok lg => ({ c with HTTPClient := client, Logger := lg }, none)

/- ============ internal/interfaces/http/handlers (health.go) ============= -/

/-- Zero-pad a number to two digits, as Go's `Format` does for month, day,
hour, minute and second fields. -/
def pad2 (n : Nat) : String :=
  if n < 10 then "0" ++ toString n else toString n

/-- Zero-pad the year to four digits. -/
def pad4 (n : Nat) : String :=
  if n < 10 then "000" ++ toString n
  else if n < 100 then "00" ++ toString n
  else if n < 1000 then "0" ++ toString n
  else toString n

/-- Proleptic-Gregorian date of a day count since 1970-01-01 (the `z`-to-
`(y, m, d)` civil-calendar conversion used by time libraries). -/
def civilFromDays (z : Nat) : Nat × Nat × Nat :=
  let z := z + 719468
  let era := z / 146097
  let doe := z % 146097
  let yoe := (doe - doe / 1460 + doe / 36524 - doe / 146097) / 365
  let y := yoe + era * 400
  let doy := doe - (365 * yoe + yoe / 4 - yoe / 100)
  let mp := (5 * doy + 2) / 153
  let d := doy - (153 * mp + 2) / 5 + 1
  let m := if mp < 10 then mp + 3 else mp - 9
  (if m ≤ 2 then y + 1 else y, m, d)

/-- `t.UTC().Format(time.RFC3339)` for an instant `t` in nanoseconds since
the epoch: `YYYY-MM-DDTHH:MM:SSZ` (seconds precision, `Z` offset for UTC). -/
def rfc3339UTC (t : Nat) : String :=
  let secs := t / 1000000000
  let days := secs / 86400
  let sod := secs % 86400
  let ymd := civilFromDays days
  pad4 ymd.1 ++ "-" ++ pad2 ymd.2.1 ++ "-" ++ pad2 ymd.2.2 ++ "T" ++
    pad2 (sod / 3600) ++ ":" ++ pad2 (sod % 3600 / 60) ++ ":" ++
    pad2 (sod % 60) ++ "Z"

/-- `handlers.HealthHandler`: the fixed startup instant recorded at
construction, and the configured version string. -/
structure HealthHandler where
  startupTime : Nat
  version : String
deriving Repr, DecidableEq

/-- `handlers.NewHealthHandler`: record `time.Now()` as the startup instant
alongside the version. -/
def NewHealthHandler (version : String) (now : Nat) : HealthHandler :=
  { startupTime := now, version := version }

/-- `handlers.HealthCheckResponse`: the JSON body schema of `GET /health`.
`UptimeSeconds` is a Go `float64`, modelled as a rational. -/
structure HealthCheckResponse where
  Status : String
  Version : String
  UptimeSeconds : ℚ
  Timestamp : String
deriving Repr, DecidableEq

/-- `time.Duration.Seconds`: a nanosecond duration as a fractional second
count. -/
def durationSeconds (d : Int) : ℚ := (d : ℚ) / 1000000000

/-- An HTTP response as produced by `c.JSON`: status code, the content type
gin sets, and the serialized body. -/
structure HTTPResponse where
  code : Nat
  contentType : String
  body : HealthCheckResponse
deriving Repr, DecidableEq

/-- `HealthHandler.Check` (`GET /health`): read the current time, compute the
uptime as seconds elapsed since the recorded startup instant, and reply 200
with the constant healthy status, the configured version, the uptime and the
current UTC time in RFC3339 format.  The handler itself is returned unchanged
(the Go method never writes through its receiver). -/
def HealthHandler.Check (h : HealthHandler) (currentTime : Nat) :
    HealthHandler × HTTPResponse :=
  let uptime := durationSeconds ((currentTime : Int) - (h.startupTime : Int))
  let response : HealthCheckResponse :=
    { Status := HealthStatusHealthy
      Version := h.version
      UptimeSeconds := uptime
      Timestamp := rfc3339UTC currentTime }
  (h, { code := 200, contentType := "application/json; charset=utf-8",
        body := response })

/- ====== internal/interfaces/http/middleware (cors.go, in server.go) ===== -/

/-- An incoming request as the CORS middleware observes it: the value of the
`Origin` header (`""` when absent, as Go's `Header.Get` reports) and the
method. -/
structure Request where
  origin : String
  method : String
deriving Repr

/-- A response writer's header map. -/
def Headers : Type := List (String × String)

/-- `Header().Set(k, v)`: replace any existing values for the key. -/
def headerSet (h : Headers) (k v : String) : Headers :=
  (k, v) :: List.filter (fun e => e.1 ≠ k) h

/-- Read back a header: the value at the key, or `none` when the key was
never set. -/
def headerGet (h : Headers) (k : String) : Option String :=
  (List.find? (fun e => e.1 = k) h).map (fun e => e.2)

/-- The allow-list loop of the CORS middleware: scan the allowed origins and
set `Access-Control-Allow-Origin` to the request's origin at the first match
(the Go loop `break`s there). -/
def corsSetOrigin : List String → String → Headers → Headers
  | [], _, w => w
  | allowed :: rest, origin, w =>
      if origin = allowed then
        headerSet w "Access-Control-Allow-Origin" origin
      else corsSetOrigin rest origin w

/-- The header-setting phase of `middleware.CORS`: the allow-list scan, then
the three unconditional headers, in source order. -/
def corsApply (req : Request) (w : Headers) : Headers :=
  let w := corsSetOrigin CORSAllowOrigins req.origin w
  let w := headerSet w "Access-Control-Allow-Credentials" "true"
  let w := headerSet w "Access-Control-Allow-Methods"
             "GET, POST, PUT, DELETE, PATCH, OPTIONS"
  headerSet w "Access-Control-Allow-Headers" "*"

/-- `middleware.CORS` around a downstream handler `next`: set the CORS
headers on a fresh response writer; a preflight `OPTIONS` request is aborted
with status 204 before `next` runs, any other request continues into
`next`. -/
def corsMiddleware (next : Request → Headers → Headers × Nat)
    (req : Request) : Headers × Nat :=
  let w := corsApply req []
  if req.method = "OPTIONS" then (w, 204) else next req w

/- ============================== Theorems ================================ -/

/-- C6: with no environment variables set and no override file present,
`Load` succeeds and returns the documented defaults: AppName `CHANGE_ME`,
AppVersion `0.1.0`, Debug false, Host `0.0.0.0`, Port 8000, LogLevel `INFO`,
LogFormat `json`. -/
theorem load_defaults :
    Load Env.empty Env.empty =
      .ok { AppName := "CHANGE_ME", AppVersion := "0.1.0", Debug := false,
            Host := "0.0.0.0", Port := 8000, LogLevel := "INFO",
            LogFormat := "json" } := rfl

/-- C1: on every invocation of the health handler's `Check`, the response has
status 200 and a body whose status field is the constant `"healthy"`, whose
version equals the version the handler was constructed with, whose
uptime_seconds is the elapsed time (in seconds) since the handler's fixed
startup instant, and whose timestamp is the current UTC time rendered in
RFC3339. -/
theorem health_check_contract (h : HealthHandler) (t : Nat) :
    (h.Check t).2.code = 200 ∧
    (h.Check t).2.body.Status = "healthy" ∧
    (h.Check t).2.body.Version = h.version ∧
    (h.Check t).2.body.UptimeSeconds =
      (((t : Int) - (h.startupTime : Int) : Int) : ℚ) / 1000000000 ∧
    (h.Check t).2.body.Timestamp = rfc3339UTC t :=
  ⟨rfl, rfl, rfl, rfl, rfl⟩

/-- C7: for every level string outside the recognized set, logger
construction does not fail on account of the level: `parseLevel` falls back
to the informational level with a nil error, and `New` succeeds at that
level. -/
theorem parseLevel_fallback (s fmt : String)
    (hs : s ∉ ["DEBUG", "INFO", "WARNING", "WARN", "ERROR", "CRITICAL",
               "FATAL"]) :
    parseLevel s = (Level.infoLevel, none) ∧
    New { Level := s, Format := fmt } =
      .ok { level := Level.infoLevel, jsonFormat := fmt = "json",
            buffered := [], syncErr := none } := by
  simp only [List.mem_cons, List.not_mem_nil, or_false, not_or] at hs
  obtain ⟨h1, h2, h3, h4, h5, h6, h7⟩ := hs
  constructor
  · simp [parseLevel, h1, h2, h3, h4, h5, h6, h7]
  · simp [New, parseLevel, h1, h2, h3, h4, h5, h6, h7]

/-- C7 witness: the unrecognized level string `"TRACE"` yields the
informational fallback and a successful construction. -/
theorem parseLevel_fallback_witness :
    ("TRACE" ∉ ["DEBUG", "INFO", "WARNING", "WARN", "ERROR", "CRITICAL",
                "FATAL"]) ∧
    parseLevel "TRACE" = (Level.infoLevel, none) ∧
    New { Level := "TRACE", Format := "json" } =
      .ok { level := Level.infoLevel, jsonFormat := true,
            buffered := [], syncErr := none } :=
  ⟨by decide, by simpa using parseLevel_fallback "TRACE" "json" (by decide)⟩

/-- C8: teardown is safe to invoke more than once: when the environment does
not force a flush error, `Close` completes without fault, leaves no idle
client connections and an empty log buffer, and a second `Close` on the
resulting container again completes without fault with the same
postconditions. -/
theorem container_close_idempotent (c : Container)
    (hs : c.Logger.syncErr = none) :
    c.Close.2 = none ∧
    c.Close.1.HTTPClient.idleConns = 0 ∧
    c.Close.1.Logger.buffered = [] ∧
    c.Close.1.Close.2 = none ∧
    c.Close.1.Close.1.HTTPClient.idleConns = 0 ∧
    c.Close.1.Close.1.Logger.buffered = [] := by
  simp [Container.Close, Logger.Sync, HTTPClient.CloseIdleConnections, hs]

/-- C8 witness: double teardown of a freshly built container. -/
theorem container_close_idempotent_witness :
    (NewContainer
        { AppName := "CHANGE_ME", AppVersion := "0.1.0", Debug := false,
          Host := "0.0.0.0", Port := 8000, LogLevel := "INFO",
          LogFormat := "json" }
        { level := Level.infoLevel, jsonFormat := true, buffered := [],
          syncErr := none }).Logger.syncErr = none ∧
    (NewContainer
        { AppName := "CHANGE_ME", AppVersion := "0.1.0", Debug := false,
          Host := "0.0.0.0", Port := 8000, LogLevel := "INFO",
          LogFormat := "json" }
        { level := Level.infoLevel, jsonFormat := true, buffered := [],
          syncErr := none }).Close.2 = none :=
  ⟨rfl, (container_close_idempotent _ rfl).1⟩

/-- C9 counterexample: the warning and fatal levels reached through the
aliases `"WARN"` and `"FATAL"` do originate from validated settings records —
the validated strings `"WARNING"` and `"CRITICAL"` parse to the very same
levels — so a directly constructed logger runs at no level that a validated
record cannot produce. -/
theorem parseLevel_alias_reachable :
    (parseLevel "WARN").1 = Level.warnLevel ∧
    (parseLevel "FATAL").1 = Level.fatalLevel ∧
    Load { Env.empty with logLevel := some "WARNING" } Env.empty =
      .ok { AppName := "CHANGE_ME", AppVersion := "0.1.0", Debug := false,
            Host := "0.0.0.0", Port := 8000, LogLevel := "WARNING",
            LogFormat := "json" } ∧
    (parseLevel "WARNING").1 = (parseLevel "WARN").1 ∧
    Load { Env.empty with logLevel := some "CRITICAL" } Env.empty =
      .ok { AppName := "CHANGE_ME", AppVersion := "0.1.0", Debug := false,
            Host := "0.0.0.0", Port := 8000, LogLevel := "CRITICAL",
            LogFormat := "json" } ∧
    (parseLevel "CRITICAL").1 = (parseLevel "FATAL").1 :=
  ⟨rfl, rfl, rfl, rfl, rfl, rfl⟩

/-- C9 (amended): `parseLevel` accepts `"WARN"` and `"FATAL"` as aliases for
the warning and fatal levels even though configuration validation rejects
those strings; the resulting levels nevertheless also arise from the
validated strings `"WARNING"` and `"CRITICAL"`; and `parseLevel` is total,
returning a level and a nil error for every input string. -/
theorem parseLevel_alias_total (s : String) :
    parseLevel "WARN" = (Level.warnLevel, none) ∧
    parseLevel "FATAL" = (Level.fatalLevel, none) ∧
    Load { Env.empty with logLevel := some "WARN" } Env.empty =
      .error "config validation failed: LogLevel" ∧
    Load { Env.empty with logLevel := some "FATAL" } Env.empty =
      .error "config validation failed: LogLevel" ∧
    parseLevel "WARNING" = parseLevel "WARN" ∧
    parseLevel "CRITICAL" = parseLevel "FATAL" ∧
    (parseLevel s).2 = none := by
  refine ⟨rfl, rfl, rfl, rfl, rfl, rfl, ?_⟩
  unfold parseLevel
  split
  · rfl
  split
  · rfl
  split
  · rfl
  split
  · rfl
  split
  · rfl
  rfl

/-- C2: for every port in [1, 65535] with the remaining settings left at
their valid defaults, `Load` succeeds and the returned record carries that
exact port; for port 0 and for port 65536, `Load` returns a validation error
naming the port field. -/
theorem load_port_range :
    (∀ p : Int, 1 ≤ p → p ≤ 65535 →
        Load { Env.empty with port := some p } Env.empty =
          .ok { AppName := "CHANGE_ME", AppVersion := "0.1.0",
                Debug := false, Host := "0.0.0.0", Port := p,
                LogLevel := "INFO", LogFormat := "json" }) ∧
    Load { Env.empty with port := some 0 } Env.empty =
      .error "config validation failed: Port" ∧
    Load { Env.empty with port := some 65536 } Env.empty =
      .error "config validation failed: Port" := by
  refine ⟨?_, rfl, rfl⟩
  intro p h1 h2
  have hup : goToUpper "INFO" = "INFO" := rfl
  simp only [Load, pick, Env.empty, hup]
  have hval : validateStruct
      { AppName := "CHANGE_ME", AppVersion := "0.1.0", Debug := false,
        Host := "0.0.0.0", Port := p, LogLevel := "INFO",
        LogFormat := "json" } = none := by
    unfold validateStruct
    repeat' split
    all_goals try simp_all [validLogLevels, validLogFormats]
    all_goals omega
  rw [hval]

/-- C2 witness: port 8080 loads to exactly 8080; the out-of-range ports fail
as stated. -/
theorem load_port_range_witness :
    ((1 : Int) ≤ 8080 ∧ (8080 : Int) ≤ 65535) ∧
    Load { Env.empty with port := some 8080 } Env.empty =
      .ok { AppName := "CHANGE_ME", AppVersion := "0.1.0", Debug := false,
            Host := "0.0.0.0", Port := 8080, LogLevel := "INFO",
            LogFormat := "json" } :=
  ⟨by decide, load_port_range.1 8080 (by decide) (by decide)⟩

/-- Characterization of `caseVariantL`: the pointwise relation holds exactly
when uppercasing the first character list yields the second. -/
theorem caseVariantL_iff (l m : List Char) :
    caseVariantL l m = true ↔ l.map Char.toUpper = m := by
  induction l generalizing m with
  | nil => cases m <;> simp [caseVariantL]
  | cons c cs ih =>
      cases m with
      | nil => simp [caseVariantL]
      | cons d ds => simp [caseVariantL, ih]

/-- `s` is a case combination of `n` exactly when uppercasing `s` yields
`n`. -/
theorem caseVariant_iff (s n : String) :
    caseVariant s n = true ↔ goToUpper s = n := by
  cases n with
  | mk ndata =>
      rw [caseVariant, caseVariantL_iff, goToUpper]
      exact ⟨fun h => congrArg String.mk h, fun h => congrArg String.data h⟩

/-- C3: for a log-level input that is a case combination of a recognized
level name, `Load` succeeds and the loaded level is the canonical uppercase
name; for an input that is a case combination of no recognized name, `Load`
returns a validation error naming the level field. -/
theorem load_log_level_case (s : String) :
    (∀ n ∈ validLogLevels, caseVariant s n = true →
        Load { Env.empty with logLevel := some s } Env.empty =
          .ok { AppName := "CHANGE_ME", AppVersion := "0.1.0",
                Debug := false, Host := "0.0.0.0", Port := 8000,
                LogLevel := n, LogFormat := "json" }) ∧
    ((∀ n ∈ validLogLevels, caseVariant s n = false) →
        Load { Env.empty with logLevel := some s } Env.empty =
          .error "config validation failed: LogLevel") := by
  constructor
  · intro n hn hcv
    have hup : goToUpper s = n := (caseVariant_iff s n).mp hcv
    simp only [Load, pick, Env.empty]
    rw [hup]
    fin_cases hn <;> rfl
  · intro hall
    have hup : goToUpper s ∉ validLogLevels := by
      intro hmem
      have h2 : caseVariant s (goToUpper s) = true :=
        (caseVariant_iff s (goToUpper s)).mpr rfl
      rw [hall _ hmem] at h2
      exact Bool.false_ne_true h2
    simp only [Load, pick, Env.empty]
    have hval : validateStruct
        { AppName := "CHANGE_ME", AppVersion := "0.1.0", Debug := false,
          Host := "0.0.0.0", Port := 8000, LogLevel := goToUpper s,
          LogFormat := "json" } = some "LogLevel" := by
      unfold validateStruct
      repeat' split
      all_goals simp_all [validLogLevels, validLogFormats]
    rw [hval]
    rfl

/-- C3 witness: the mixed-case input `"wArNiNg"` loads as `"WARNING"`; the
unrecognized input `"banana"` fails validation. -/
theorem load_log_level_case_witness :
    (caseVariant "wArNiNg" "WARNING" = true ∧
      Load { Env.empty with logLevel := some "wArNiNg" } Env.empty =
        .ok { AppName := "CHANGE_ME", AppVersion := "0.1.0", Debug := false,
              Host := "0.0.0.0", Port := 8000, LogLevel := "WARNING",
              LogFormat := "json" }) ∧
    Load { Env.empty with logLevel := some "banana" } Env.empty =
      .error "config validation failed: LogLevel" :=
  ⟨⟨by decide,
    (load_log_level_case "wArNiNg").1 "WARNING" (by decide) (by decide)⟩,
   (load_log_level_case "banana").2 (by decide)⟩

/-- C4: within one process, the health handler's startup instant is fixed at
construction and unchanged by `Check`; across two calls in monotone clock
order, the reported uptimes are non-decreasing and status and version are
identical. -/
theorem health_uptime_monotone (h : HealthHandler) (v : String)
    (t0 t1 t2 : Nat) (hle : t1 ≤ t2) :
    (h.Check t1).2.body.UptimeSeconds ≤ (h.Check t2).2.body.UptimeSeconds ∧
    (h.Check t1).2.body.Status = (h.Check t2).2.body.Status ∧
    (h.Check t1).2.body.Version = (h.Check t2).2.body.Version ∧
    (h.Check t1).1 = h ∧
    (NewHealthHandler v t0).startupTime = t0 := by
  refine ⟨?_, rfl, rfl, rfl, rfl⟩
  show durationSeconds ((t1 : Int) - (h.startupTime : Int)) ≤
    durationSeconds ((t2 : Int) - (h.startupTime : Int))
  unfold durationSeconds
  gcongr

/-- C4 witness: two calls at instants 5 and 7 on a handler started at 3. -/
theorem health_uptime_monotone_witness :
    (5 : Nat) ≤ 7 ∧
    ((NewHealthHandler "0.1.0" 3).Check 5).2.body.UptimeSeconds ≤
      ((NewHealthHandler "0.1.0" 3).Check 7).2.body.UptimeSeconds :=
  ⟨by decide,
   (health_uptime_monotone (NewHealthHandler "0.1.0" 3) "0.1.0" 3 5 7
      (by decide)).1⟩

/-- C5: an allow-listed request origin is reflected exactly in the
`Access-Control-Allow-Origin` header the middleware sets; a non-listed origin
leaves that header unset; and a preflight `OPTIONS` request is
short-circuited with a 204 response whose value never consults the
downstream handler. -/
theorem cors_origin_allowlist (next : Request → Headers → Headers × Nat)
    (req : Request) :
    (req.origin ∈ CORSAllowOrigins →
        headerGet (corsApply req []) "Access-Control-Allow-Origin" =
          some req.origin) ∧
    (req.origin ∉ CORSAllowOrigins →
        headerGet (corsApply req []) "Access-Control-Allow-Origin" =
          none) ∧
    (req.method = "OPTIONS" →
        (corsMiddleware next req).2 = 204 ∧
        ∀ next2, corsMiddleware next req = corsMiddleware next2 req) := by
  obtain ⟨o, m⟩ := req
  refine ⟨?_, ?_, ?_⟩
  · intro hmem
    simp only [CORSAllowOrigins, List.mem_cons, List.not_mem_nil,
      or_false] at hmem
    rcases hmem with h | h | h <;> subst h <;> rfl
  · intro hmem
    simp only [CORSAllowOrigins, List.mem_cons, List.not_mem_nil, or_false,
      not_or] at hmem
    obtain ⟨h1, h2, h3⟩ := hmem
    have h0 : corsSetOrigin CORSAllowOrigins o [] = [] := by
      simp [corsSetOrigin, CORSAllowOrigins, h1, h2, h3]
    simp only [corsApply, h0]
    rfl
  · intro hm
    subst hm
    exact ⟨rfl, fun next2 => rfl⟩

/-- C5 witness: the middleware's behavior at an allow-listed origin, a
non-listed origin, and a preflight request. -/
theorem cors_origin_allowlist_witness :
    ("http://localhost:3000" ∈ CORSAllowOrigins ∧
      headerGet
          (corsApply { origin := "http://localhost:3000", method := "GET" }
            [])
          "Access-Control-Allow-Origin" = some "http://localhost:3000") ∧
    ("http://evil.example" ∉ CORSAllowOrigins ∧
      headerGet
          (corsApply { origin := "http://evil.example", method := "GET" } [])
          "Access-Control-Allow-Origin" = none) ∧
    (corsMiddleware (fun _ w => (w, 200))
        { origin := "x", method := "OPTIONS" }).2 = 204 :=
  ⟨⟨by decide,
    (cors_origin_allowlist (fun _ w => (w, 200))
        { origin := "http://localhost:3000", method := "GET" }).1
      (by decide)⟩,
   ⟨by decide,
    (cors_origin_allowlist (fun _ w => (w, 200))
        { origin := "http://evil.example", method := "GET" }).2.1
      (by decide)⟩,
   ((cors_origin_allowlist (fun _ w => (w, 200))
        { origin := "x", method := "OPTIONS" }).2.2 rfl).1⟩

/-- C10: on every request the middleware sets
`Access-Control-Allow-Credentials` to `"true"`, the fixed method list, and
`Access-Control-Allow-Headers` to `"*"`; a preflight from a non-listed
origin still receives 204, with credentials allowed but no
`Access-Control-Allow-Origin` header. -/
theorem cors_unconditional_headers
    (next : Request → Headers → Headers × Nat) (req : Request) :
    headerGet (corsApply req []) "Access-Control-Allow-Credentials" =
      some "true" ∧
    headerGet (corsApply req []) "Access-Control-Allow-Methods" =
      some "GET, POST, PUT, DELETE, PATCH, OPTIONS" ∧
    headerGet (corsApply req []) "Access-Control-Allow-Headers" =
      some "*" ∧
    (req.method = "OPTIONS" → req.origin ∉ CORSAllowOrigins →
        (corsMiddleware next req).2 = 204 ∧
        headerGet (corsMiddleware next req).1
          "Access-Control-Allow-Origin" = none ∧
        headerGet (corsMiddleware next req).1
          "Access-Control-Allow-Credentials" = some "true") := by
  obtain ⟨o, m⟩ := req
  refine ⟨rfl, rfl, rfl, ?_⟩
  intro hm hno
  subst hm
  simp only [CORSAllowOrigins, List.mem_cons, List.not_mem_nil, or_false,
    not_or] at hno
  obtain ⟨h1, h2, h3⟩ := hno
  have h0 : corsSetOrigin CORSAllowOrigins o [] = [] := by
    simp [corsSetOrigin, CORSAllowOrigins, h1, h2, h3]
  refine ⟨rfl, ?_, rfl⟩
  show headerGet (corsApply { origin := o, method := "OPTIONS" } [])
    "Access-Control-Allow-Origin" = none
  simp only [corsApply, h0]
  rfl

/-- C10 witness: a preflight request from a non-listed origin. -/
theorem cors_unconditional_headers_witness :
    headerGet
        (corsApply { origin := "nope", method := "OPTIONS" } [])
        "Access-Control-Allow-Credentials" = some "true" ∧
    ("nope" ∉ CORSAllowOrigins) ∧
    (corsMiddleware (fun _ w => (w, 200))
        { origin := "nope", method := "OPTIONS" }).2 = 204 ∧
    headerGet
        (corsMiddleware (fun _ w => (w, 200))
          { origin := "nope", method := "OPTIONS" }).1
        "Access-Control-Allow-Origin" = none :=
  ⟨(cors_unconditional_headers (fun _ w => (w, 200))
      { origin := "nope", method := "OPTIONS" }).1,
   by decide,
   ((cors_unconditional_headers (fun _ w => (w, 200))
        { origin := "nope", method := "OPTIONS" }).2.2.2 rfl
      (by decide)).1,
   ((cors_unconditional_headers (fun _ w => (w, 200))
        { origin := "nope", method := "OPTIONS" }).2.2.2 rfl
      (by decide)).2.1⟩
